import Mathlib

/-!
Shallow embedding of `src/lambda/main.py` from the
aws-underutilized-resource-detector repository, together with proofs of the
specification claims about it.

Modelling conventions:
* Python floats are modelled as exact rationals (`ℚ`); `round(x, 2)` is
  modelled as round-half-to-even at two decimal places (`pyRound2`).
* AWS collaborator calls (inventory listing, CloudWatch metric retrieval,
  Cost Explorer, SNS publish, tagging) are modelled by an `AwsWorld` record:
  enumeration calls may fail (`Except`), the CloudWatch call is a function
  from the request to the returned datapoints, and outbound side effects
  (`create_tags`, `sns.publish`) are recorded in a trace.
* A Python exception is modelled as an `Except.error` carrying the message;
  once raised it propagates to the end of the invocation (the handler has no
  try/except).
-/

/-- Round-half-to-even of a rational to an integer, as Python's `round`
rounds an exact value. -/
def roundHalfEven (x : ℚ) : ℤ :=
  let f : ℤ := Int.floor x
  let frac : ℚ := x - f
  if frac < 1/2 then f
  else if 1/2 < frac then f + 1
  else if f % 2 = 0 then f else f + 1

/-- Python's `round(x, 2)`: round-half-to-even at two decimal places
(idealised over exact rationals). -/
def pyRound2 (x : ℚ) : ℚ := (roundHalfEven (x * 100) : ℚ) / 100

/-- Decimal rendering of a rational that is an exact multiple of 1/100, as
Python `str`/`repr` prints such a float (`10.0`, `9.99`, `0.5`). Every value
interpolated into a report line has passed through `round(_, 2)`. -/
def pyFloatRepr (q : ℚ) : String :=
  let sgn := if q < 0 then "-" else ""
  let cents : ℤ := Int.floor (|q| * 100)
  let ip : ℤ := cents / 100
  let f : ℕ := (cents % 100).toNat
  let fracStr :=
    if f = 0 then "0"
    else if f % 10 = 0 then toString (f / 10)
    else if f < 10 then "0" ++ toString f
    else toString f
  sgn ++ toString ip ++ "." ++ fracStr

/-- One CloudWatch datapoint; the code only reads its `Average` field. -/
structure Datapoint where
  Average : ℚ
deriving DecidableEq

/-- The arguments of a `cloudwatch.get_metric_statistics` call. The 24-hour
look-back window, the 3600-second period and the `["Average"]` statistics
list are constants in the source and are recorded as fields. -/
structure MetricQuery where
  Namespace : String
  MetricName : String
  DimensionName : String
  DimensionValue : String
  LookbackHours : ℕ
  Period : ℕ
  Statistics : List String
deriving DecidableEq

/-- A CloudWatch client: the datapoints returned for each query. -/
def CloudWatch : Type := MetricQuery → List Datapoint

/-- `get_avg_cpu_utilization` from `main.py`: fetch hourly averages over the
last 24 hours, return the mean of the `Average` fields rounded to 2 decimal
places, or `none` (Python `None`) when there are no datapoints. -/
def get_avg_cpu_utilization (cloudwatch : CloudWatch)
    (ns metric_name dimension_name identifier : String) : Option ℚ :=
  let metrics := cloudwatch
    ⟨ns, metric_name, dimension_name, identifier, 24, 3600, ["Average"]⟩
  let datapoints := metrics
  if datapoints = [] then none
  else some (pyRound2
    ((datapoints.map Datapoint.Average).sum / (datapoints.length : ℚ)))

/-- A UTC timestamp, as the fields `datetime.utcnow()` exposes. -/
structure UTCTime where
  year : ℕ
  month : ℕ
  day : ℕ
  hour : ℕ
  minute : ℕ
  second : ℕ
deriving DecidableEq

def pad2 (n : ℕ) : String := if n < 10 then "0" ++ toString n else toString n

def pad4 (n : ℕ) : String :=
  if n < 10 then "000" ++ toString n
  else if n < 100 then "00" ++ toString n
  else if n < 1000 then "0" ++ toString n
  else toString n

/-- `datetime.utcnow().strftime("%Y-%m-%dT%H:%M:%SZ")`. -/
def strftimeZ (t : UTCTime) : String :=
  pad4 t.year ++ "-" ++ pad2 t.month ++ "-" ++ pad2 t.day ++ "T" ++
    pad2 t.hour ++ ":" ++ pad2 t.minute ++ ":" ++ pad2 t.second ++ "Z"

/-- One tag passed to `ec2.create_tags`. -/
structure Tag where
  Key : String
  Value : String
deriving DecidableEq

/-- One recorded `ec2.create_tags` call. -/
structure TagCall where
  Resources : List String
  Tags : List Tag
deriving DecidableEq

/-- `tag_resource` from `main.py`: the `create_tags` call it issues (the
`print` statements have no modelled effect). -/
def tag_resource (now : UTCTime) (resource_id : String) : TagCall :=
  { Resources := [resource_id]
    Tags := [⟨"Underutilized", "True"⟩, ⟨"FlaggedAt", strftimeZ now⟩] }

/-- The four module-level threshold constants of `main.py`. -/
structure Config where
  EC2_CPU_THRESHOLD : ℚ
  RDS_CPU_THRESHOLD : ℚ
  EBS_IO_THRESHOLD : ℚ
  ELB_REQUEST_THRESHOLD : ℚ
deriving DecidableEq

/-- The process environment (`os.environ`). -/
structure Env where
  vars : String → Option String

def digitVal (c : Char) : Option ℕ :=
  if '0' ≤ c ∧ c ≤ '9' then some (c.toNat - '0'.toNat) else none

def digitsToNat : List Char → Option ℕ
  | [] => some 0
  | c :: cs =>
    match digitVal c, digitsToNat cs with
    | some d, some n => some (d * 10 ^ cs.length + n)
    | _, _ => none

/-- Whitespace as Python's `float()` strips it. -/
def isPySpace (c : Char) : Bool :=
  c = ' ' ∨ c = '\t' ∨ c = '\n' ∨ c = '\r' ∨ c = '\x0b' ∨ c = '\x0c'

/-- Python's `str.strip()` on a character list. -/
def pyStrip (cs : List Char) : List Char :=
  ((cs.dropWhile isPySpace).reverse.dropWhile isPySpace).reverse

/-- Split a character list at the first `'.'`, if any. -/
def splitDot : List Char → List Char × Option (List Char)
  | [] => ([], none)
  | c :: cs =>
    if c = '.' then ([], some cs)
    else
      let p := splitDot cs
      (c :: p.1, p.2)

/-- Python's `float()` on a plain decimal numeral (optional sign, optional
fractional part, surrounding whitespace stripped); `none` models the
`ValueError` raised on a non-numeric string. Exponent and inf/nan forms are
not modelled. -/
def pyFloat (s : String) : Option ℚ :=
  let t := pyStrip s.data
  let signed : ℚ × List Char :=
    match t with
    | '-' :: cs => (-1, cs)
    | '+' :: cs => (1, cs)
    | cs => (1, cs)
  let body := splitDot signed.2
  match body.2 with
  | none =>
    match body.1, digitsToNat body.1 with
    | [], _ => none
    | _, some n => some (signed.1 * n)
    | _, none => none
  | some fracCs =>
    if body.1 = [] ∧ fracCs = [] then none
    else
      match digitsToNat body.1, digitsToNat fracCs with
      | some ipart, some fpart =>
        some (signed.1 * (ipart + (fpart : ℚ) / 10 ^ fracCs.length))
      | _, _ => none

/-- `float(os.environ.get(name, default))`: the default is a number, so it
always converts; a present but non-numeric string raises `ValueError`. -/
def getFloatEnv (env : Env) (name : String) (default : ℚ) : Except String ℚ :=
  match env.vars name with
  | none => .ok default
  | some s =>
    match pyFloat s with
    | some q => .ok q
    | none => .error ("ValueError: could not convert string to float: " ++ s)

/-- The module-level initialisation of `main.py`: the four `float(...)`
threshold reads run at import time, before any handler invocation. -/
def moduleInit (env : Env) : Except String Config := do
  let e ← getFloatEnv env "EC2_CPU_THRESHOLD" 10
  let r ← getFloatEnv env "RDS_CPU_THRESHOLD" 10
  let b ← getFloatEnv env "EBS_IO_THRESHOLD" 1
  let l ← getFloatEnv env "ELB_REQUEST_THRESHOLD" 1
  pure ⟨e, r, b, l⟩

/-- One entry of `ec2_response["Reservations"][i]["Instances"]`. -/
structure Instance where
  InstanceId : String
deriving DecidableEq

/-- One entry of `ec2_response["Reservations"]`. -/
structure Reservation where
  Instances : List Instance
deriving DecidableEq

/-- One entry of `rds_response["DBInstances"]`. -/
structure DBInstance where
  DBInstanceIdentifier : String
deriving DecidableEq

/-- One entry of `ec2.describe_volumes(...)["Volumes"]`. -/
structure Volume where
  VolumeId : String
deriving DecidableEq

/-- One entry of `elbv2.describe_target_groups()["TargetGroups"]`. -/
structure TargetGroup where
  TargetGroupName : String
  LoadBalancerArns : List String
deriving DecidableEq

/-- The external collaborators of one invocation: what each AWS call
returns. Enumeration and Cost Explorer calls may fail. -/
structure AwsWorld where
  cloudwatch : CloudWatch
  describe_instances : Except String (List Reservation)
  describe_db_instances : Except String (List DBInstance)
  describe_volumes : Except String (List Volume)
  describe_target_groups : Except String (List TargetGroup)
  cost_results : Except String (List ℚ)

/-- `get_cost_estimate` from `main.py`: `ResultsByTime[0]` amounts, rounded
to 2 decimals; indexing an empty result list raises. -/
def get_cost_estimate (w : AwsWorld) : Except String ℚ :=
  match w.cost_results with
  | .error e => .error e
  | .ok [] => .error "IndexError: list index out of range"
  | .ok (amount :: _) => .ok (pyRound2 amount)

/-- The body of the EC2 loop of `lambda_handler` for one instance: the
strings appended to `underutilized_resources` and `utilized_resources` and
the `tag_resource` calls issued. -/
def ec2InstanceCheck (cfg : Config) (cw : CloudWatch) (now : UTCTime)
    (instance_id : String) : List String × List String × List TagCall :=
  match get_avg_cpu_utilization cw "AWS/EC2" "CPUUtilization" "InstanceId"
      instance_id with
  | none => ([], [], [])
  | some avg_cpu =>
    let a := pyFloatRepr avg_cpu
    if avg_cpu < cfg.EC2_CPU_THRESHOLD then
      ([s!"EC2 Instance {instance_id}: {a}% avg CPU"], [],
        [tag_resource now instance_id])
    else
      ([], [s!"EC2 Instance {instance_id}: {a}% avg CPU (OK)"], [])

/-- The inner `for instance in reservation["Instances"]` loop. -/
def ec2Loop (cfg : Config) (cw : CloudWatch) (now : UTCTime) :
    List Instance → List String × List String × List TagCall
  | [] => ([], [], [])
  | inst :: rest =>
    let h := ec2InstanceCheck cfg cw now inst.InstanceId
    let r := ec2Loop cfg cw now rest
    (h.1 ++ r.1, h.2.1 ++ r.2.1, h.2.2 ++ r.2.2)

/-- The outer `for reservation in ec2_response["Reservations"]` loop. -/
def reservationsLoop (cfg : Config) (cw : CloudWatch) (now : UTCTime) :
    List Reservation → List String × List String × List TagCall
  | [] => ([], [], [])
  | res :: rest =>
    let h := ec2Loop cfg cw now res.Instances
    let r := reservationsLoop cfg cw now rest
    (h.1 ++ r.1, h.2.1 ++ r.2.1, h.2.2 ++ r.2.2)

/-- The body of the RDS loop of `lambda_handler` for one DB instance. -/
def rdsInstanceCheck (cfg : Config) (cw : CloudWatch) (db_id : String) :
    List String × List String :=
  match get_avg_cpu_utilization cw "AWS/RDS" "CPUUtilization"
      "DBInstanceIdentifier" db_id with
  | none => ([], [])
  | some avg_cpu =>
    let a := pyFloatRepr avg_cpu
    if avg_cpu < cfg.RDS_CPU_THRESHOLD then
      ([s!"RDS Instance {db_id}: {a}% avg CPU"], [])
    else
      ([], [s!"RDS Instance {db_id}: {a}% avg CPU (OK)"])

/-- The `for db in rds_response["DBInstances"]` loop. -/
def rdsLoop (cfg : Config) (cw : CloudWatch) :
    List DBInstance → List String × List String
  | [] => ([], [])
  | db :: rest =>
    let h := rdsInstanceCheck cfg cw db.DBInstanceIdentifier
    let r := rdsLoop cfg cw rest
    (h.1 ++ r.1, h.2 ++ r.2)

/-- The body of the EBS loop of `lambda_handler` for one volume. -/
def ebsVolumeCheck (cfg : Config) (cw : CloudWatch) (now : UTCTime)
    (vol_id : String) : List String × List String × List TagCall :=
  let read_ops := get_avg_cpu_utilization cw "AWS/EBS" "VolumeReadOps"
    "VolumeId" vol_id
  let write_ops := get_avg_cpu_utilization cw "AWS/EBS" "VolumeWriteOps"
    "VolumeId" vol_id
  match read_ops, write_ops with
  | some r, some w =>
    let rs := pyFloatRepr r
    let ws := pyFloatRepr w
    if r < cfg.EBS_IO_THRESHOLD ∧ w < cfg.EBS_IO_THRESHOLD then
      ([s!"EBS Volume {vol_id}: Low I/O activity (ReadOps: {rs}, WriteOps: {ws})"],
        [], [tag_resource now vol_id])
    else
      ([], [s!"EBS Volume {vol_id}: ReadOps: {rs}, WriteOps: {ws} (OK)"], [])
  | _, _ => ([], [], [])

/-- The `for vol in volumes` loop. -/
def ebsLoop (cfg : Config) (cw : CloudWatch) (now : UTCTime) :
    List Volume → List String × List String × List TagCall
  | [] => ([], [], [])
  | vol :: rest =>
    let h := ebsVolumeCheck cfg cw now vol.VolumeId
    let r := ebsLoop cfg cw now rest
    (h.1 ++ r.1, h.2.1 ++ r.2.1, h.2.2 ++ r.2.2)

/-- Python's `str.split(sep)` for a one-character separator: the groups of
characters between occurrences of the separator (always at least one,
possibly empty, group). -/
def pySplit (sep : Char) : List Char → List (List Char)
  | [] => [[]]
  | c :: rest =>
    match pySplit sep rest with
    | [] => [[]]
    | g :: gs => if c = sep then [] :: g :: gs else (c :: g) :: gs

/-- `arn.split('/')[-1]`: `split` always yields at least one group, so the
`[-1]` index never raises. -/
def splitSlashLast (arn : String) : String :=
  String.mk ((pySplit '/' arn.data).getLastD [])

/-- The body of the ELBv2 loop for one target group:
`tg["LoadBalancerArns"][0]` raises `IndexError` when the ARN list is
empty. -/
def elbTargetGroupCheck (cfg : Config) (cw : CloudWatch)
    (tg : TargetGroup) : Except String (List String × List String) :=
  match tg.LoadBalancerArns with
  | [] => .error "IndexError: list index out of range"
  | arn :: _ =>
    let lb_arn_suffix := splitSlashLast arn
    let requests := get_avg_cpu_utilization cw "AWS/ApplicationELB"
      "RequestCount" "LoadBalancer" lb_arn_suffix
    match requests with
    | none => .ok ([], [])
    | some req =>
      let a := pyFloatRepr req
      if req < cfg.ELB_REQUEST_THRESHOLD then
        .ok ([s!"ELBv2 {tg.TargetGroupName}: Low traffic ({a} requests/hour)"], [])
      else
        .ok ([], [s!"ELBv2 {tg.TargetGroupName}: {a} requests/hour (OK)"])

/-- The `for tg in target_groups` loop; an exception in any iteration
propagates. -/
def elbLoop (cfg : Config) (cw : CloudWatch) :
    List TargetGroup → Except String (List String × List String)
  | [] => .ok ([], [])
  | tg :: rest => do
    let h ← elbTargetGroupCheck cfg cw tg
    let r ← elbLoop cfg cw rest
    pure (h.1 ++ r.1, h.2 ++ r.2)

/-- The alert-message composition at the end of `lambda_handler`. -/
def composeMessage (underutilized utilized : List String)
    (estimated_cost : ℚ) : String :=
  let message_parts :=
    (if underutilized = [] then [] else
      ["UNDERUTILIZED AWS RESOURCES DETECTED",
        String.intercalate "\n" (underutilized.map (fun r => "• " ++ r)),
        "Consider rightsizing or terminating these resources.\n"])
    ++
    (if utilized = [] then [] else
      ["UTILIZED RESOURCES (HEALTHY)",
        String.intercalate "\n" (utilized.map (fun r => "• " ++ r))])
    ++ ["\nEstimated Daily AWS Cost: $" ++ pyFloatRepr estimated_cost]
  String.intercalate "\n\n" message_parts

/-- One recorded `sns.publish` call. -/
structure SnsPublish where
  TopicArn : Option String
  Subject : String
  Message : String
deriving DecidableEq

/-- The handler's return value `{"statusCode": ..., "body": ...}`. -/
structure RetVal where
  statusCode : ℕ
  body : String
deriving DecidableEq

instance {ε α : Type} [DecidableEq ε] [DecidableEq α] :
    DecidableEq (Except ε α) := fun a b =>
  match a, b with
  | .error e, .error f =>
    if h : e = f then .isTrue (by rw [h])
    else .isFalse (by intro hh; cases hh; exact h rfl)
  | .error _, .ok _ => .isFalse (by intro h; cases h)
  | .ok _, .error _ => .isFalse (by intro h; cases h)
  | .ok x, .ok y =>
    if h : x = y then .isTrue (by rw [h])
    else .isFalse (by intro hh; cases hh; exact h rfl)

/-- The observable outcome of one invocation: the side effects issued before
the invocation finished or raised, the accumulator lists at that point, and
the returned value or the propagated exception. (After an exception the
accumulator lists are dead local state in the source; the trace records the
values they held when the exception was raised, partial ELBv2-loop entries
excluded.) -/
structure HandlerTrace where
  tagCalls : List TagCall
  published : List SnsPublish
  underutilized_resources : List String
  utilized_resources : List String
  result : Except String RetVal
deriving DecidableEq

/-- `lambda_handler` from `main.py`, given the thresholds read at module
load, the per-invocation environment (read only for `SNS_TOPIC_ARN`), the
collaborator responses and the current time. -/
def lambda_handler (cfg : Config) (env : Env) (w : AwsWorld)
    (now : UTCTime) : HandlerTrace :=
  let sns_arn := env.vars "SNS_TOPIC_ARN"
  match w.describe_instances with
  | .error e => ⟨[], [], [], [], .error e⟩
  | .ok reservations =>
    let p1 := reservationsLoop cfg w.cloudwatch now reservations
    match w.describe_db_instances with
    | .error e => ⟨p1.2.2, [], p1.1, p1.2.1, .error e⟩
    | .ok dbs =>
      let p2 := rdsLoop cfg w.cloudwatch dbs
      match w.describe_volumes with
      | .error e => ⟨p1.2.2, [], p1.1 ++ p2.1, p1.2.1 ++ p2.2, .error e⟩
      | .ok vols =>
        let p3 := ebsLoop cfg w.cloudwatch now vols
        match w.describe_target_groups with
        | .error e =>
          ⟨p1.2.2 ++ p3.2.2, [], p1.1 ++ p2.1 ++ p3.1,
            p1.2.1 ++ p2.2 ++ p3.2.1, .error e⟩
        | .ok target_groups =>
          match elbLoop cfg w.cloudwatch target_groups with
          | .error e =>
            ⟨p1.2.2 ++ p3.2.2, [], p1.1 ++ p2.1 ++ p3.1,
              p1.2.1 ++ p2.2 ++ p3.2.1, .error e⟩
          | .ok p4 =>
            match get_cost_estimate w with
            | .error e =>
              ⟨p1.2.2 ++ p3.2.2, [], p1.1 ++ p2.1 ++ p3.1 ++ p4.1,
                p1.2.1 ++ p2.2 ++ p3.2.1 ++ p4.2, .error e⟩
            | .ok estimated_cost =>
              let underutilized_resources := p1.1 ++ p2.1 ++ p3.1 ++ p4.1
              let utilized_resources := p1.2.1 ++ p2.2 ++ p3.2.1 ++ p4.2
              let message := composeMessage underutilized_resources
                utilized_resources estimated_cost
              ⟨p1.2.2 ++ p3.2.2,
                [⟨sns_arn, "AWS Underutilized Resource Alert", message⟩],
                underutilized_resources, utilized_resources,
                .ok ⟨200, "Utilization scan complete."⟩⟩

/-- The outcome of one process: the module initialisation (which runs the
threshold conversions) followed by zero or more handler invocations, each
with its own per-invocation environment, collaborator responses and clock.
The `Config` is computed once at start and shared by every invocation. -/
structure ProcessRun where
  startupError : Option String
  traces : List HandlerTrace
deriving DecidableEq

def runProcess (startEnv : Env)
    (invocations : List (Env × AwsWorld × UTCTime)) : ProcessRun :=
  match moduleInit startEnv with
  | .error e => ⟨some e, []⟩
  | .ok cfg =>
    ⟨none, invocations.map (fun inv => lambda_handler cfg inv.1 inv.2.1 inv.2.2)⟩

/-! ## Derived classification predicates (the conditions of the source's
`if` tests, packaged for statements about tagging) -/

/-- A compute instance counts as underutilized: its CPU lookup yields a
value strictly below the EC2 threshold. -/
def ec2Underutilized (cfg : Config) (cw : CloudWatch)
    (instance_id : String) : Prop :=
  ∃ v, get_avg_cpu_utilization cw "AWS/EC2" "CPUUtilization" "InstanceId"
      instance_id = some v ∧ v < cfg.EC2_CPU_THRESHOLD

/-- A volume counts as underutilized: both I/O lookups yield values and both
are strictly below the EBS threshold. -/
def ebsUnderutilized (cfg : Config) (cw : CloudWatch)
    (vol_id : String) : Prop :=
  ∃ r s,
    get_avg_cpu_utilization cw "AWS/EBS" "VolumeReadOps" "VolumeId" vol_id
        = some r ∧
    get_avg_cpu_utilization cw "AWS/EBS" "VolumeWriteOps" "VolumeId" vol_id
        = some s ∧
    r < cfg.EBS_IO_THRESHOLD ∧ s < cfg.EBS_IO_THRESHOLD

/-! ## Claim theorems -/

/-- C1: for a metric query whose response has N ≥ 1 datapoints the averager
returns the arithmetic mean of the `Average` fields rounded to two decimal
places; for a response with zero datapoints it returns the `None`
sentinel. -/
theorem C1_averager_mean_or_none (cw : CloudWatch)
    (ns mn dn ident : String) :
    (∀ (N : ℕ) (m : ℚ),
      (cw ⟨ns, mn, dn, ident, 24, 3600, ["Average"]⟩).length = N →
      1 ≤ N →
      m * N = ((cw ⟨ns, mn, dn, ident, 24, 3600, ["Average"]⟩).map
        Datapoint.Average).sum →
      get_avg_cpu_utilization cw ns mn dn ident = some (pyRound2 m)) ∧
    (cw ⟨ns, mn, dn, ident, 24, 3600, ["Average"]⟩ = [] →
      get_avg_cpu_utilization cw ns mn dn ident = none) := by
  constructor
  · intro N m hlen hN hm
    have hne : cw ⟨ns, mn, dn, ident, 24, 3600, ["Average"]⟩ ≠ [] := by
      intro h
      rw [h] at hlen
      simp at hlen
      omega
    have hN0 : ((cw ⟨ns, mn, dn, ident, 24, 3600, ["Average"]⟩).length : ℚ) ≠ 0 := by
      rw [hlen]
      exact_mod_cast Nat.one_le_iff_ne_zero.mp hN
    simp only [get_avg_cpu_utilization, if_neg hne, Option.some.injEq]
    congr 1
    rw [div_eq_iff hN0, hlen]
    exact hm.symm
  · intro h
    simp [get_avg_cpu_utilization, h]

def C1cwA : CloudWatch := fun _ => [⟨3⟩]

def C1cwB : CloudWatch := fun _ => []

theorem C1_witness :
    get_avg_cpu_utilization C1cwA "AWS/EC2" "CPUUtilization" "InstanceId"
        "i-1" = some (pyRound2 3) ∧
    get_avg_cpu_utilization C1cwB "AWS/EC2" "CPUUtilization" "InstanceId"
        "i-1" = none :=
  ⟨(C1_averager_mean_or_none C1cwA "AWS/EC2" "CPUUtilization" "InstanceId"
      "i-1").1 1 3 rfl (by decide) (by simp [C1cwA]),
   (C1_averager_mean_or_none C1cwB "AWS/EC2" "CPUUtilization" "InstanceId"
      "i-1").2 rfl⟩

/-- C3: a compute or database instance with a valid average `v` is
classified Underutilized exactly when `v` is strictly below the kind's
threshold, and Healthy exactly when it is not. -/
theorem C3_strict_threshold (cfg : Config) (cw : CloudWatch) (now : UTCTime)
    (instance_id db_id : String) (v u : ℚ)
    (hv : get_avg_cpu_utilization cw "AWS/EC2" "CPUUtilization" "InstanceId"
      instance_id = some v)
    (hu : get_avg_cpu_utilization cw "AWS/RDS" "CPUUtilization"
      "DBInstanceIdentifier" db_id = some u) :
    ((ec2InstanceCheck cfg cw now instance_id).1 ≠ [] ↔
      v < cfg.EC2_CPU_THRESHOLD) ∧
    ((ec2InstanceCheck cfg cw now instance_id).2.1 ≠ [] ↔
      ¬v < cfg.EC2_CPU_THRESHOLD) ∧
    ((rdsInstanceCheck cfg cw db_id).1 ≠ [] ↔ u < cfg.RDS_CPU_THRESHOLD) ∧
    ((rdsInstanceCheck cfg cw db_id).2 ≠ [] ↔ ¬u < cfg.RDS_CPU_THRESHOLD) := by
  refine ⟨?_, ?_, ?_, ?_⟩ <;>
    simp only [ec2InstanceCheck, rdsInstanceCheck, hv, hu] <;>
    split <;> simp_all

def C3cw : CloudWatch := fun q =>
  if q.Namespace = "AWS/EC2" then [⟨999/100⟩]
  else if q.Namespace = "AWS/RDS" then [⟨10⟩]
  else []

theorem C3_witness :
    (ec2InstanceCheck ⟨10, 10, 1, 1⟩ C3cw ⟨2026, 1, 1, 0, 0, 0⟩ "i-1").1
        ≠ [] ∧
    (rdsInstanceCheck ⟨10, 10, 1, 1⟩ C3cw "db-1").2 ≠ [] := by
  have h := C3_strict_threshold ⟨10, 10, 1, 1⟩ C3cw ⟨2026, 1, 1, 0, 0, 0⟩
    "i-1" "db-1" (999/100) 10
    (by norm_num +decide [get_avg_cpu_utilization, C3cw, pyRound2,
      roundHalfEven])
    (by norm_num +decide [get_avg_cpu_utilization, C3cw, pyRound2,
      roundHalfEven])
  exact ⟨h.1.mpr (by norm_num), h.2.2.2.mpr (by norm_num)⟩

/-- C4: a volume with valid read and write averages is classified
Underutilized exactly when both rates are strictly below the I/O threshold,
and Healthy exactly when at least one of them is not. -/
theorem C4_volume_and_of_both (cfg : Config) (cw : CloudWatch)
    (now : UTCTime) (vol_id : String) (r s : ℚ)
    (hr : get_avg_cpu_utilization cw "AWS/EBS" "VolumeReadOps" "VolumeId"
      vol_id = some r)
    (hs : get_avg_cpu_utilization cw "AWS/EBS" "VolumeWriteOps" "VolumeId"
      vol_id = some s) :
    ((ebsVolumeCheck cfg cw now vol_id).1 ≠ [] ↔
      r < cfg.EBS_IO_THRESHOLD ∧ s < cfg.EBS_IO_THRESHOLD) ∧
    ((ebsVolumeCheck cfg cw now vol_id).2.1 ≠ [] ↔
      ¬(r < cfg.EBS_IO_THRESHOLD ∧ s < cfg.EBS_IO_THRESHOLD)) := by
  constructor <;>
    simp only [ebsVolumeCheck, hr, hs] <;>
    split <;> simp_all

def C4cw : CloudWatch := fun q =>
  if q.MetricName = "VolumeReadOps" then [⟨1/2⟩]
  else if q.MetricName = "VolumeWriteOps" ∧ q.DimensionValue = "vol-1"
    then [⟨1/2⟩]
  else [⟨3/2⟩]

theorem C4_witness :
    (ebsVolumeCheck ⟨10, 10, 1, 1⟩ C4cw ⟨2026, 1, 1, 0, 0, 0⟩ "vol-1").1
        ≠ [] ∧
    (ebsVolumeCheck ⟨10, 10, 1, 1⟩ C4cw ⟨2026, 1, 1, 0, 0, 0⟩ "vol-2").2.1
        ≠ [] := by
  have h1 := C4_volume_and_of_both ⟨10, 10, 1, 1⟩ C4cw ⟨2026, 1, 1, 0, 0, 0⟩
    "vol-1" (1/2) (1/2)
    (by norm_num +decide [get_avg_cpu_utilization, C4cw, pyRound2,
      roundHalfEven])
    (by norm_num +decide [get_avg_cpu_utilization, C4cw, pyRound2,
      roundHalfEven])
  have h2 := C4_volume_and_of_both ⟨10, 10, 1, 1⟩ C4cw ⟨2026, 1, 1, 0, 0, 0⟩
    "vol-2" (1/2) (3/2)
    (by norm_num +decide [get_avg_cpu_utilization, C4cw, pyRound2,
      roundHalfEven])
    (by norm_num +decide [get_avg_cpu_utilization, C4cw, pyRound2,
      roundHalfEven])
  exact ⟨h1.1.mpr (by norm_num), h2.2.mpr (by norm_num)⟩


/-- C2: a resource whose metric lookup returns the no-data sentinel is
classified neither Underutilized nor Healthy: removing it from the
inventory leaves every list produced by its resource kind's loop unchanged,
for all four resource kinds. -/
theorem C2_no_data_excluded (cfg : Config) (cw : CloudWatch)
    (now : UTCTime) :
    (∀ (pre post : List Instance) (iid : String),
      get_avg_cpu_utilization cw "AWS/EC2" "CPUUtilization" "InstanceId" iid
          = none →
      ec2Loop cfg cw now (pre ++ ⟨iid⟩ :: post) =
        ec2Loop cfg cw now (pre ++ post)) ∧
    (∀ (pre post : List DBInstance) (did : String),
      get_avg_cpu_utilization cw "AWS/RDS" "CPUUtilization"
          "DBInstanceIdentifier" did = none →
      rdsLoop cfg cw (pre ++ ⟨did⟩ :: post) = rdsLoop cfg cw (pre ++ post)) ∧
    (∀ (pre post : List Volume) (vid : String),
      (get_avg_cpu_utilization cw "AWS/EBS" "VolumeReadOps" "VolumeId" vid
          = none ∨
       get_avg_cpu_utilization cw "AWS/EBS" "VolumeWriteOps" "VolumeId" vid
          = none) →
      ebsLoop cfg cw now (pre ++ ⟨vid⟩ :: post) =
        ebsLoop cfg cw now (pre ++ post)) ∧
    (∀ (pre post : List TargetGroup) (nm arn : String) (arns : List String),
      get_avg_cpu_utilization cw "AWS/ApplicationELB" "RequestCount"
          "LoadBalancer" (splitSlashLast arn) = none →
      elbLoop cfg cw (pre ++ ⟨nm, arn :: arns⟩ :: post) =
        elbLoop cfg cw (pre ++ post)) := by
  refine ⟨?_, ?_, ?_, ?_⟩
  · intro pre post iid h
    induction pre with
    | nil => simp [ec2Loop, ec2InstanceCheck, h]
    | cons p pre ih => simp only [List.cons_append, ec2Loop, List.append_eq, ih]
  · intro pre post did h
    induction pre with
    | nil => simp [rdsLoop, rdsInstanceCheck, h]
    | cons p pre ih => simp only [List.cons_append, rdsLoop, List.append_eq, ih]
  · intro pre post vid h
    induction pre with
    | nil =>
      rcases h with h | h <;> simp [ebsLoop, ebsVolumeCheck, h]
    | cons p pre ih => simp only [List.cons_append, ebsLoop, List.append_eq, ih]
  · intro pre post nm arn arns h
    induction pre with
    | nil =>
      show elbLoop cfg cw (⟨nm, arn :: arns⟩ :: post) = elbLoop cfg cw post
      simp only [elbLoop, elbTargetGroupCheck, h]
      cases helb : elbLoop cfg cw post <;>
        simp [helb, Bind.bind, Except.bind, Pure.pure, Except.pure]
    | cons p pre ih => simp only [List.cons_append, elbLoop, List.append_eq, ih]

def C2cw : CloudWatch := fun _ => []

theorem C2_witness :
    (ec2Loop ⟨10, 10, 1, 1⟩ C2cw ⟨2026, 1, 1, 0, 0, 0⟩
        ([⟨"i-0"⟩] ++ ⟨"i-1"⟩ :: []) =
      ec2Loop ⟨10, 10, 1, 1⟩ C2cw ⟨2026, 1, 1, 0, 0, 0⟩ ([⟨"i-0"⟩] ++ [])) ∧
    (rdsLoop ⟨10, 10, 1, 1⟩ C2cw ([] ++ ⟨"db-1"⟩ :: []) =
      rdsLoop ⟨10, 10, 1, 1⟩ C2cw ([] ++ [])) ∧
    (ebsLoop ⟨10, 10, 1, 1⟩ C2cw ⟨2026, 1, 1, 0, 0, 0⟩
        ([] ++ ⟨"vol-1"⟩ :: []) =
      ebsLoop ⟨10, 10, 1, 1⟩ C2cw ⟨2026, 1, 1, 0, 0, 0⟩ ([] ++ [])) ∧
    (elbLoop ⟨10, 10, 1, 1⟩ C2cw ([] ++ ⟨"tg-1", "a/b" :: []⟩ :: []) =
      elbLoop ⟨10, 10, 1, 1⟩ C2cw ([] ++ [])) := by
  have h := C2_no_data_excluded ⟨10, 10, 1, 1⟩ C2cw ⟨2026, 1, 1, 0, 0, 0⟩
  exact ⟨h.1 [⟨"i-0"⟩] [] "i-1" rfl, h.2.1 [] [] "db-1" rfl,
    h.2.2.1 [] [] "vol-1" (Or.inl rfl), h.2.2.2 [] [] "tg-1" "a/b" [] rfl⟩

/-- Any target group whose `LoadBalancerArns` list is empty makes the ELBv2
loop raise `IndexError`. -/
theorem elbLoop_indexError (cfg : Config) (cw : CloudWatch) :
    ∀ tgs : List TargetGroup, (∃ tg ∈ tgs, tg.LoadBalancerArns = []) →
      elbLoop cfg cw tgs = .error "IndexError: list index out of range" := by
  intro tgs h
  induction tgs with
  | nil => simp at h
  | cons t rest ih =>
    rcases h with ⟨tg, htg, harns⟩
    rcases List.mem_cons.mp htg with rfl | hmem
    · simp [elbLoop, elbTargetGroupCheck, harns, Bind.bind, Except.bind]
    · cases ht : t.LoadBalancerArns with
      | nil => simp [elbLoop, elbTargetGroupCheck, ht, Bind.bind, Except.bind]
      | cons a as =>
        have hrest := ih ⟨tg, hmem, harns⟩
        have hok : ∃ p, elbTargetGroupCheck cfg cw t = .ok p := by
          simp only [elbTargetGroupCheck, ht]
          cases get_avg_cpu_utilization cw "AWS/ApplicationELB"
              "RequestCount" "LoadBalancer" (splitSlashLast a) with
          | none => exact ⟨([], []), rfl⟩
          | some r => dsimp only; split <;> exact ⟨_, rfl⟩
        rcases hok with ⟨p, hp⟩
        simp [elbLoop, hp, hrest, Bind.bind, Except.bind]

/-- C10: if the target-group enumeration returns any group with an empty
associated load-balancer ARN list, the handler raises an unhandled
`IndexError` and the whole invocation fails (no notification is
published). -/
theorem C10_empty_arn_list_fails (cfg : Config) (env : Env) (w : AwsWorld)
    (now : UTCTime) (rs : List Reservation) (dbs : List DBInstance)
    (vols : List Volume) (tgs : List TargetGroup)
    (h1 : w.describe_instances = .ok rs)
    (h2 : w.describe_db_instances = .ok dbs)
    (h3 : w.describe_volumes = .ok vols)
    (h4 : w.describe_target_groups = .ok tgs)
    (h5 : ∃ tg ∈ tgs, tg.LoadBalancerArns = []) :
    (lambda_handler cfg env w now).result =
      .error "IndexError: list index out of range" ∧
    (lambda_handler cfg env w now).published = [] := by
  have he := elbLoop_indexError cfg w.cloudwatch tgs h5
  simp [lambda_handler, h1, h2, h3, h4, he]

def envNone : Env := ⟨fun _ => none⟩

def C10w : AwsWorld :=
  ⟨C2cw, .ok [], .ok [], .ok [], .ok [⟨"tg-1", []⟩], .ok [1]⟩

theorem C10_witness :
    (lambda_handler ⟨10, 10, 1, 1⟩ envNone C10w ⟨2026, 1, 1, 0, 0, 0⟩).result
        = .error "IndexError: list index out of range" ∧
    (lambda_handler ⟨10, 10, 1, 1⟩ envNone C10w
        ⟨2026, 1, 1, 0, 0, 0⟩).published = [] :=
  C10_empty_arn_list_fails ⟨10, 10, 1, 1⟩ envNone C10w ⟨2026, 1, 1, 0, 0, 0⟩
    [] [] [] [⟨"tg-1", []⟩] rfl rfl rfl rfl (by simp)

def C5w : AwsWorld := ⟨C2cw, .ok [], .ok [], .ok [], .ok [], .ok [0]⟩

/-- C5 counterexample: an invocation in which zero resources are classified
Underutilized still publishes a notification: the claim that no message is
published is false. -/
theorem C5_counterexample :
    (lambda_handler ⟨10, 10, 1, 1⟩ envNone C5w
        ⟨2026, 1, 1, 0, 0, 0⟩).underutilized_resources = [] ∧
    (lambda_handler ⟨10, 10, 1, 1⟩ envNone C5w
        ⟨2026, 1, 1, 0, 0, 0⟩).published ≠ [] := by
  simp [lambda_handler, C5w, C2cw, envNone, reservationsLoop, rdsLoop,
    ebsLoop, elbLoop, get_cost_estimate]

/-- C5 (amended): whenever every collaborator call succeeds and zero
resources are classified Underutilized, exactly one notification is still
published and the invocation returns the success status; the published
message omits the underutilized section — it consists only of the healthy
section (when there are healthy resources) and the cost line. -/
theorem C5_amended_always_publishes (cfg : Config) (env : Env)
    (w : AwsWorld) (now : UTCTime) (rs : List Reservation)
    (dbs : List DBInstance) (vols : List Volume) (tgs : List TargetGroup)
    (p4 : List String × List String) (c : ℚ)
    (h1 : w.describe_instances = .ok rs)
    (h2 : w.describe_db_instances = .ok dbs)
    (h3 : w.describe_volumes = .ok vols)
    (h4 : w.describe_target_groups = .ok tgs)
    (h5 : elbLoop cfg w.cloudwatch tgs = .ok p4)
    (h6 : get_cost_estimate w = .ok c)
    (h0 : (lambda_handler cfg env w now).underutilized_resources = []) :
    (lambda_handler cfg env w now).published =
      [⟨env.vars "SNS_TOPIC_ARN", "AWS Underutilized Resource Alert",
        String.intercalate "\n\n"
          ((if (lambda_handler cfg env w now).utilized_resources = []
              then []
              else ["UTILIZED RESOURCES (HEALTHY)",
                String.intercalate "\n"
                  ((lambda_handler cfg env w now).utilized_resources.map
                    (fun r => "• " ++ r))]) ++
            ["\nEstimated Daily AWS Cost: $" ++ pyFloatRepr c])⟩] ∧
    (lambda_handler cfg env w now).published.length = 1 ∧
    (lambda_handler cfg env w now).result =
      .ok ⟨200, "Utilization scan complete."⟩ := by
  have h0' : (reservationsLoop cfg w.cloudwatch now rs).1 = [] ∧
      (rdsLoop cfg w.cloudwatch dbs).1 = [] ∧
      (ebsLoop cfg w.cloudwatch now vols).1 = [] ∧ p4.1 = [] := by
    simpa [lambda_handler, h1, h2, h3, h4, h5, h6] using h0
  obtain ⟨ha, hb, hc, hd⟩ := h0'
  simp [lambda_handler, h1, h2, h3, h4, h5, h6, composeMessage, ha, hb, hc,
    hd]

theorem C5_witness :
    (lambda_handler ⟨10, 10, 1, 1⟩ envNone C5w
        ⟨2026, 1, 1, 0, 0, 0⟩).published =
      [⟨envNone.vars "SNS_TOPIC_ARN", "AWS Underutilized Resource Alert",
        String.intercalate "\n\n"
          ((if (lambda_handler ⟨10, 10, 1, 1⟩ envNone C5w
                  ⟨2026, 1, 1, 0, 0, 0⟩).utilized_resources = []
              then []
              else ["UTILIZED RESOURCES (HEALTHY)",
                String.intercalate "\n"
                  ((lambda_handler ⟨10, 10, 1, 1⟩ envNone C5w
                      ⟨2026, 1, 1, 0, 0, 0⟩).utilized_resources.map
                    (fun r => "• " ++ r))]) ++
            ["\nEstimated Daily AWS Cost: $" ++
              pyFloatRepr (pyRound2 0)])⟩] ∧
    (lambda_handler ⟨10, 10, 1, 1⟩ envNone C5w
        ⟨2026, 1, 1, 0, 0, 0⟩).published.length = 1 ∧
    (lambda_handler ⟨10, 10, 1, 1⟩ envNone C5w
        ⟨2026, 1, 1, 0, 0, 0⟩).result =
      .ok ⟨200, "Utilization scan complete."⟩ :=
  C5_amended_always_publishes ⟨10, 10, 1, 1⟩ envNone C5w
    ⟨2026, 1, 1, 0, 0, 0⟩ [] [] [] [] ([], []) (pyRound2 0)
    rfl rfl rfl rfl rfl rfl
    (by simp [lambda_handler, C5w, C2cw, envNone, reservationsLoop, rdsLoop,
      ebsLoop, elbLoop, get_cost_estimate])

def C6cw : CloudWatch := fun q =>
  if q.Namespace = "AWS/EC2" ∧ q.DimensionValue = "i-1" then [⟨5⟩] else []

def C6w : AwsWorld :=
  ⟨C6cw, .ok [⟨[⟨"i-1"⟩]⟩], .ok [], .ok [], .error "AccessDenied", .ok [0]⟩

/-- C6 counterexample: with one underutilized compute instance gathered and
a failing target-group enumeration, nothing at all is published — the
compute finding does not appear in any final notification, so the claimed
isolation does not hold. -/
theorem C6_counterexample :
    (lambda_handler ⟨10, 10, 1, 1⟩ envNone C6w
        ⟨2026, 1, 1, 0, 0, 0⟩).underutilized_resources ≠ [] ∧
    (lambda_handler ⟨10, 10, 1, 1⟩ envNone C6w
        ⟨2026, 1, 1, 0, 0, 0⟩).published = [] ∧
    (lambda_handler ⟨10, 10, 1, 1⟩ envNone C6w
        ⟨2026, 1, 1, 0, 0, 0⟩).result = .error "AccessDenied" := by
  norm_num +decide [lambda_handler, C6w, C6cw, envNone, reservationsLoop,
    ec2Loop, ec2InstanceCheck, rdsLoop, ebsLoop, get_avg_cpu_utilization,
    pyRound2, roundHalfEven]

/-- C6 (amended): resource-kind passes are not failure-isolated — when the
load-balancer target-group enumeration fails, the exception aborts the
invocation: no notification is published, the invocation fails with that
error, the compute and database findings already gathered stay in the dead
accumulator lists, and the EC2/EBS tag calls already issued remain in
effect in the trace. -/
theorem C6_amended_no_isolation (cfg : Config) (env : Env) (w : AwsWorld)
    (now : UTCTime) (e : String) (rs : List Reservation)
    (dbs : List DBInstance) (vols : List Volume)
    (h1 : w.describe_instances = .ok rs)
    (h2 : w.describe_db_instances = .ok dbs)
    (h3 : w.describe_volumes = .ok vols)
    (h4 : w.describe_target_groups = .error e) :
    (lambda_handler cfg env w now).published = [] ∧
    (lambda_handler cfg env w now).result = .error e ∧
    (lambda_handler cfg env w now).underutilized_resources =
      (reservationsLoop cfg w.cloudwatch now rs).1 ++
        (rdsLoop cfg w.cloudwatch dbs).1 ++
        (ebsLoop cfg w.cloudwatch now vols).1 ∧
    (lambda_handler cfg env w now).tagCalls =
      (reservationsLoop cfg w.cloudwatch now rs).2.2 ++
        (ebsLoop cfg w.cloudwatch now vols).2.2 := by
  simp [lambda_handler, h1, h2, h3, h4]

theorem C6_witness :
    (lambda_handler ⟨10, 10, 1, 1⟩ envNone C6w
        ⟨2026, 1, 1, 0, 0, 0⟩).published = [] ∧
    (lambda_handler ⟨10, 10, 1, 1⟩ envNone C6w
        ⟨2026, 1, 1, 0, 0, 0⟩).result = .error "AccessDenied" ∧
    (lambda_handler ⟨10, 10, 1, 1⟩ envNone C6w
        ⟨2026, 1, 1, 0, 0, 0⟩).underutilized_resources =
      (reservationsLoop ⟨10, 10, 1, 1⟩ C6cw ⟨2026, 1, 1, 0, 0, 0⟩
          [⟨[⟨"i-1"⟩]⟩]).1 ++
        (rdsLoop ⟨10, 10, 1, 1⟩ C6cw []).1 ++
        (ebsLoop ⟨10, 10, 1, 1⟩ C6cw ⟨2026, 1, 1, 0, 0, 0⟩ []).1 ∧
    (lambda_handler ⟨10, 10, 1, 1⟩ envNone C6w
        ⟨2026, 1, 1, 0, 0, 0⟩).tagCalls =
      (reservationsLoop ⟨10, 10, 1, 1⟩ C6cw ⟨2026, 1, 1, 0, 0, 0⟩
          [⟨[⟨"i-1"⟩]⟩]).2.2 ++
        (ebsLoop ⟨10, 10, 1, 1⟩ C6cw ⟨2026, 1, 1, 0, 0, 0⟩ []).2.2 :=
  C6_amended_no_isolation ⟨10, 10, 1, 1⟩ envNone C6w ⟨2026, 1, 1, 0, 0, 0⟩
    "AccessDenied" [⟨[⟨"i-1"⟩]⟩] [] [] rfl rfl rfl rfl

def C7cw : CloudWatch := fun q =>
  if q.Namespace = "AWS/EC2" ∧ q.DimensionValue = "i-1" then [⟨5⟩] else []

def C7E1 : Env := ⟨fun s => if s = "SNS_TOPIC_ARN" then some "arn:t" else none⟩

def C7E2 : Env :=
  ⟨fun s =>
    if s = "EC2_CPU_THRESHOLD" then some "0"
    else if s = "SNS_TOPIC_ARN" then some "arn:t"
    else none⟩

def C7w : AwsWorld :=
  ⟨C7cw, .ok [⟨[⟨"i-1"⟩]⟩], .ok [], .ok [], .ok [], .ok [0]⟩

/-- C7 counterexample: an invocation whose at-invocation environment sets
the compute threshold to 0 still classifies with the threshold parsed when
the process started (default 10): the invocation behaves differently from a
process whose module load saw that same environment, so the thresholds used
are not the environment values at the invocation. -/
theorem C7_counterexample :
    (runProcess C7E1 [(C7E2, C7w, ⟨2026, 1, 1, 0, 0, 0⟩)]).traces.map
        HandlerTrace.underutilized_resources ≠
    (runProcess C7E2 [(C7E2, C7w, ⟨2026, 1, 1, 0, 0, 0⟩)]).traces.map
        HandlerTrace.underutilized_resources := by
  norm_num +decide [runProcess, moduleInit, getFloatEnv, pyFloat, pyStrip,
    isPySpace, splitDot, digitsToNat, digitVal, C7E1, C7E2, lambda_handler,
    C7w, C7cw, reservationsLoop, ec2Loop, ec2InstanceCheck, rdsLoop,
    ebsLoop, elbLoop, get_cost_estimate, get_avg_cpu_utilization, pyRound2,
    roundHalfEven, Bind.bind, Except.bind, Pure.pure, Except.pure]

/-- C7 (amended): the four thresholds are parsed once at module load and
reused unchanged by every invocation of the process; per-invocation
environment changes to the threshold variables have no effect on the trace
(only `SNS_TOPIC_ARN` is re-read inside the handler). -/
theorem C7_amended_thresholds_from_module_load (startEnv e1 e2 : Env)
    (w : AwsWorld) (t : UTCTime)
    (h : e1.vars "SNS_TOPIC_ARN" = e2.vars "SNS_TOPIC_ARN") :
    (runProcess startEnv [(e1, w, t)]).traces =
      (runProcess startEnv [(e2, w, t)]).traces := by
  unfold runProcess
  cases moduleInit startEnv with
  | error e => rfl
  | ok cfg => simp only [List.map_cons, List.map_nil, lambda_handler, h]

theorem C7_witness :
    (runProcess C7E1 [(C7E1, C7w, ⟨2026, 1, 1, 0, 0, 0⟩)]).traces =
      (runProcess C7E1 [(C7E2, C7w, ⟨2026, 1, 1, 0, 0, 0⟩)]).traces :=
  C7_amended_thresholds_from_module_load C7E1 C7E1 C7E2 C7w
    ⟨2026, 1, 1, 0, 0, 0⟩ rfl

/-- Tag calls issued by the inner EC2 instance loop come exactly from
instances whose CPU average is present and strictly below the threshold. -/
theorem ec2Loop_tagCalls (cfg : Config) (cw : CloudWatch) (now : UTCTime) :
    ∀ (l : List Instance) (tc : TagCall), tc ∈ (ec2Loop cfg cw now l).2.2 →
      ∃ inst ∈ l, tc = tag_resource now inst.InstanceId ∧
        ec2Underutilized cfg cw inst.InstanceId := by
  intro l
  induction l with
  | nil => intro tc h; simp [ec2Loop] at h
  | cons p rest ih =>
    intro tc h
    simp only [ec2Loop] at h
    rw [List.mem_append] at h
    rcases h with h | h
    · cases hv : get_avg_cpu_utilization cw "AWS/EC2" "CPUUtilization"
          "InstanceId" p.InstanceId with
      | none =>
        rw [show (ec2InstanceCheck cfg cw now p.InstanceId).2.2 = [] by
          simp [ec2InstanceCheck, hv]] at h
        simp at h
      | some v =>
        by_cases hlt : v < cfg.EC2_CPU_THRESHOLD
        · rw [show (ec2InstanceCheck cfg cw now p.InstanceId).2.2 =
              [tag_resource now p.InstanceId] by
            simp [ec2InstanceCheck, hv, hlt]] at h
          simp only [List.mem_singleton] at h
          exact ⟨p, List.mem_cons_self p rest, h, v, hv, hlt⟩
        · rw [show (ec2InstanceCheck cfg cw now p.InstanceId).2.2 = [] by
            simp [ec2InstanceCheck, hv, hlt]] at h
          simp at h
    · rcases ih tc h with ⟨inst, hmem, hrest⟩
      exact ⟨inst, List.mem_cons_of_mem p hmem, hrest⟩

/-- Tag calls issued by the whole reservations loop come exactly from
underutilized running instances of some reservation. -/
theorem reservationsLoop_tagCalls (cfg : Config) (cw : CloudWatch)
    (now : UTCTime) :
    ∀ (rs : List Reservation) (tc : TagCall),
      tc ∈ (reservationsLoop cfg cw now rs).2.2 →
      ∃ res ∈ rs, ∃ inst ∈ res.Instances,
        tc = tag_resource now inst.InstanceId ∧
        ec2Underutilized cfg cw inst.InstanceId := by
  intro rs
  induction rs with
  | nil => intro tc h; simp [reservationsLoop] at h
  | cons r rest ih =>
    intro tc h
    simp only [reservationsLoop] at h
    rw [List.mem_append] at h
    rcases h with h | h
    · rcases ec2Loop_tagCalls cfg cw now r.Instances tc h with
        ⟨inst, hmem, hrest⟩
      exact ⟨r, List.mem_cons_self r rest, inst, hmem, hrest⟩
    · rcases ih tc h with ⟨res, hres, hrest⟩
      exact ⟨res, List.mem_cons_of_mem r hres, hrest⟩

/-- Tag calls issued by the EBS loop come exactly from volumes both of
whose I/O averages are present and strictly below the threshold. -/
theorem ebsLoop_tagCalls (cfg : Config) (cw : CloudWatch) (now : UTCTime) :
    ∀ (l : List Volume) (tc : TagCall), tc ∈ (ebsLoop cfg cw now l).2.2 →
      ∃ vol ∈ l, tc = tag_resource now vol.VolumeId ∧
        ebsUnderutilized cfg cw vol.VolumeId := by
  intro l
  induction l with
  | nil => intro tc h; simp [ebsLoop] at h
  | cons p rest ih =>
    intro tc h
    simp only [ebsLoop] at h
    rw [List.mem_append] at h
    rcases h with h | h
    · cases hr : get_avg_cpu_utilization cw "AWS/EBS" "VolumeReadOps"
          "VolumeId" p.VolumeId with
      | none =>
        rw [show (ebsVolumeCheck cfg cw now p.VolumeId).2.2 = [] by
          simp [ebsVolumeCheck, hr]] at h
        simp at h
      | some r =>
        cases hw : get_avg_cpu_utilization cw "AWS/EBS" "VolumeWriteOps"
            "VolumeId" p.VolumeId with
        | none =>
          rw [show (ebsVolumeCheck cfg cw now p.VolumeId).2.2 = [] by
            simp [ebsVolumeCheck, hr, hw]] at h
          simp at h
        | some s =>
          by_cases hlt : r < cfg.EBS_IO_THRESHOLD ∧ s < cfg.EBS_IO_THRESHOLD
          · rw [show (ebsVolumeCheck cfg cw now p.VolumeId).2.2 =
                [tag_resource now p.VolumeId] by
              simp [ebsVolumeCheck, hr, hw, hlt]] at h
            simp only [List.mem_singleton] at h
            exact ⟨p, List.mem_cons_self p rest, h, r, s, hr, hw, hlt.1,
              hlt.2⟩
          · rw [show (ebsVolumeCheck cfg cw now p.VolumeId).2.2 = [] by
              simp [ebsVolumeCheck, hr, hw, hlt]] at h
            simp at h
    · rcases ih tc h with ⟨vol, hmem, hrest⟩
      exact ⟨vol, List.mem_cons_of_mem p hmem, hrest⟩

/-- Every tag call of an invocation comes from the EC2 pass or the EBS
pass. -/
theorem handler_tagCalls_split (cfg : Config) (env : Env) (w : AwsWorld)
    (now : UTCTime) :
    ∀ tc ∈ (lambda_handler cfg env w now).tagCalls,
      (∃ rs, w.describe_instances = .ok rs ∧
        tc ∈ (reservationsLoop cfg w.cloudwatch now rs).2.2) ∨
      (∃ vols, w.describe_volumes = .ok vols ∧
        tc ∈ (ebsLoop cfg w.cloudwatch now vols).2.2) := by
  intro tc h
  simp only [lambda_handler] at h
  cases h1 : w.describe_instances with
  | error e => rw [h1] at h; simp at h
  | ok rs =>
    rw [h1] at h
    cases h2 : w.describe_db_instances with
    | error e => rw [h2] at h; exact Or.inl ⟨rs, rfl, h⟩
    | ok dbs =>
      rw [h2] at h
      cases h3 : w.describe_volumes with
      | error e => rw [h3] at h; exact Or.inl ⟨rs, rfl, h⟩
      | ok vols =>
        rw [h3] at h
        cases h4 : w.describe_target_groups with
        | error e =>
          rw [h4] at h
          rcases List.mem_append.mp h with hm | hm
          · exact Or.inl ⟨rs, rfl, hm⟩
          · exact Or.inr ⟨vols, rfl, hm⟩
        | ok tgs =>
          rw [h4] at h
          dsimp only at h
          cases h5 : elbLoop cfg w.cloudwatch tgs with
          | error e =>
            rw [h5] at h
            rcases List.mem_append.mp h with hm | hm
            · exact Or.inl ⟨rs, rfl, hm⟩
            · exact Or.inr ⟨vols, rfl, hm⟩
          | ok p4 =>
            rw [h5] at h
            dsimp only at h
            cases h6 : get_cost_estimate w with
            | error e =>
              rw [h6] at h
              rcases List.mem_append.mp h with hm | hm
              · exact Or.inl ⟨rs, rfl, hm⟩
              · exact Or.inr ⟨vols, rfl, hm⟩
            | ok c =>
              rw [h6] at h
              rcases List.mem_append.mp h with hm | hm
              · exact Or.inl ⟨rs, rfl, hm⟩
              · exact Or.inr ⟨vols, rfl, hm⟩

/-- C8: every tagging request of an invocation targets a single resource
that is either an underutilized running compute instance or an
underutilized in-use volume (never a database instance, a target group, or
a healthy resource), and applies exactly the boolean `Underutilized` flag
and the ISO-8601 UTC detection timestamp. -/
theorem C8_tagging_scope (cfg : Config) (env : Env) (w : AwsWorld)
    (now : UTCTime) (tc : TagCall)
    (h : tc ∈ (lambda_handler cfg env w now).tagCalls) :
    tc.Tags = [⟨"Underutilized", "True"⟩, ⟨"FlaggedAt", strftimeZ now⟩] ∧
    ∃ id, tc.Resources = [id] ∧
      ((∃ rs, w.describe_instances = .ok rs ∧
          (∃ res ∈ rs, (⟨id⟩ : Instance) ∈ res.Instances) ∧
          ec2Underutilized cfg w.cloudwatch id) ∨
       (∃ vols, w.describe_volumes = .ok vols ∧ (⟨id⟩ : Volume) ∈ vols ∧
          ebsUnderutilized cfg w.cloudwatch id)) := by
  rcases handler_tagCalls_split cfg env w now tc h with ⟨rs, hrs, hm⟩ |
    ⟨vols, hvols, hm⟩
  · rcases reservationsLoop_tagCalls cfg w.cloudwatch now rs tc hm with
      ⟨res, hres, inst, hinst, htc, hund⟩
    subst htc
    exact ⟨rfl, inst.InstanceId, rfl,
      Or.inl ⟨rs, hrs, ⟨res, hres, hinst⟩, hund⟩⟩
  · rcases ebsLoop_tagCalls cfg w.cloudwatch now vols tc hm with
      ⟨vol, hvol, htc, hund⟩
    subst htc
    exact ⟨rfl, vol.VolumeId, rfl, Or.inr ⟨vols, hvols, hvol, hund⟩⟩

theorem C8_witness :
    (tag_resource ⟨2026, 1, 1, 0, 0, 0⟩ "i-1").Tags =
      [⟨"Underutilized", "True"⟩,
        ⟨"FlaggedAt", strftimeZ ⟨2026, 1, 1, 0, 0, 0⟩⟩] ∧
    ∃ id, (tag_resource ⟨2026, 1, 1, 0, 0, 0⟩ "i-1").Resources = [id] ∧
      ((∃ rs, C6w.describe_instances = .ok rs ∧
          (∃ res ∈ rs, (⟨id⟩ : Instance) ∈ res.Instances) ∧
          ec2Underutilized ⟨10, 10, 1, 1⟩ C6w.cloudwatch id) ∨
       (∃ vols, C6w.describe_volumes = .ok vols ∧ (⟨id⟩ : Volume) ∈ vols ∧
          ebsUnderutilized ⟨10, 10, 1, 1⟩ C6w.cloudwatch id)) :=
  C8_tagging_scope ⟨10, 10, 1, 1⟩ envNone C6w ⟨2026, 1, 1, 0, 0, 0⟩
    (tag_resource ⟨2026, 1, 1, 0, 0, 0⟩ "i-1")
    (by norm_num +decide [lambda_handler, C6w, C6cw, envNone,
      reservationsLoop, ec2Loop, ec2InstanceCheck, get_avg_cpu_utilization,
      pyRound2, roundHalfEven])

/-- C9: when any threshold environment variable holds a non-numeric string,
the process fails at module load: no handler invocation runs, so no
resource evaluation or external call is ever made. -/
theorem C9_fail_fast (env : Env) (invs : List (Env × AwsWorld × UTCTime))
    (name s : String)
    (hname : name = "EC2_CPU_THRESHOLD" ∨ name = "RDS_CPU_THRESHOLD" ∨
      name = "EBS_IO_THRESHOLD" ∨ name = "ELB_REQUEST_THRESHOLD")
    (henv : env.vars name = some s)
    (hbad : pyFloat s = none) :
    ∃ e, runProcess env invs = ⟨some e, []⟩ := by
  have herr : ∀ d, getFloatEnv env name d =
      .error ("ValueError: could not convert string to float: " ++ s) := by
    intro d
    simp [getFloatEnv, henv, hbad]
  rcases hname with rfl | rfl | rfl | rfl
  · exact ⟨"ValueError: could not convert string to float: " ++ s, by simp [runProcess, moduleInit, herr, Bind.bind, Except.bind]⟩
  · cases hA : getFloatEnv env "EC2_CPU_THRESHOLD" 10 with
    | error e =>
      exact ⟨e, by simp [runProcess, moduleInit, hA, Bind.bind, Except.bind]⟩
    | ok q =>
      exact ⟨"ValueError: could not convert string to float: " ++ s, by
        simp [runProcess, moduleInit, hA, herr, Bind.bind, Except.bind]⟩
  · cases hA : getFloatEnv env "EC2_CPU_THRESHOLD" 10 with
    | error e =>
      exact ⟨e, by simp [runProcess, moduleInit, hA, Bind.bind, Except.bind]⟩
    | ok q =>
      cases hB : getFloatEnv env "RDS_CPU_THRESHOLD" 10 with
      | error e =>
        exact ⟨e, by
          simp [runProcess, moduleInit, hA, hB, Bind.bind, Except.bind]⟩
      | ok r =>
        exact ⟨"ValueError: could not convert string to float: " ++ s, by
          simp [runProcess, moduleInit, hA, hB, herr, Bind.bind,
            Except.bind]⟩
  · cases hA : getFloatEnv env "EC2_CPU_THRESHOLD" 10 with
    | error e =>
      exact ⟨e, by simp [runProcess, moduleInit, hA, Bind.bind, Except.bind]⟩
    | ok q =>
      cases hB : getFloatEnv env "RDS_CPU_THRESHOLD" 10 with
      | error e =>
        exact ⟨e, by
          simp [runProcess, moduleInit, hA, hB, Bind.bind, Except.bind]⟩
      | ok r =>
        cases hC : getFloatEnv env "EBS_IO_THRESHOLD" 1 with
        | error e =>
          exact ⟨e, by
            simp [runProcess, moduleInit, hA, hB, hC, Bind.bind,
              Except.bind]⟩
        | ok b =>
          exact ⟨"ValueError: could not convert string to float: " ++ s, by
            simp [runProcess, moduleInit, hA, hB, hC, herr, Bind.bind,
              Except.bind]⟩

def C9env : Env :=
  ⟨fun nm => if nm = "EC2_CPU_THRESHOLD" then some "abc" else none⟩

theorem C9_witness : ∃ e, runProcess C9env [] = ⟨some e, []⟩ :=
  C9_fail_fast C9env [] "EC2_CPU_THRESHOLD" "abc" (Or.inl rfl) rfl
    (by decide)
